import Mathlib

/-!
Shallow embedding of `homework.py` / `exceptions.py` (a Telegram homework
status bot).  Python values occurring in API payloads are modelled by
`PyVal`; Python exceptions by `Exc`; external effects (the HTTP transport,
the clock, the Telegram transport) are inputs: the HTTP outcome of a cycle
is an `HttpResult`, the successive results of `int(time.time())` are an
oracle `Nat → Int`, and the successive outcomes of `bot.send_message` are an
oracle `Nat → Option String` (`none` = delivered, `some e` = the transport
raised `TelegramError(e)`).
-/

/-- The subset of Python values that can appear in the decoded API payload. -/
inductive PyVal where
  | pyNone
  | pyStr (s : String)
  | pyInt (n : Int)
  | pyList (xs : List PyVal)
  | pyDict (kvs : List (String × PyVal))

/-- Python truthiness test `x is None`. -/
def isNone : PyVal → Bool
  | PyVal.pyNone => true
  | _ => false

/-- Python `type(v).__name__` for the modelled values. -/
def pyTypeName : PyVal → String
  | PyVal.pyNone => "NoneType"
  | PyVal.pyStr _ => "str"
  | PyVal.pyInt _ => "int"
  | PyVal.pyList _ => "list"
  | PyVal.pyDict _ => "dict"

/-- Lookup of a string key in a dict (`d[k]` when present; `none` models a
`KeyError` site).  Python dicts have unique keys; the first binding wins. -/
def dictLookup? (kvs : List (String × PyVal)) (k : String) : Option PyVal :=
  match kvs with
  | [] => none
  | (k2, v) :: rest => if k2 = k then some v else dictLookup? rest k

/-- Python `d.get(k)`: `None` both when the key is absent and when it is
bound to `None`. -/
def dictGet (kvs : List (String × PyVal)) (k : String) : PyVal :=
  match dictLookup? kvs k with
  | some v => v
  | none => PyVal.pyNone

/-- Removes every binding of a key from a dict (used to compare a record
missing a key with a record binding it to `None`). -/
def removeKey (k : String) : List (String × PyVal) → List (String × PyVal)
  | [] => []
  | (k2, v) :: rest =>
      if k2 = k then removeKey k rest else (k2, v) :: removeKey k rest

mutual

/-- Python `repr(v)` (string escaping inside reprs is not modelled; no
theorem depends on the repr of a container). -/
def pyRepr : PyVal → String
  | PyVal.pyNone => "None"
  | PyVal.pyStr s => "\x27" ++ s ++ "\x27"
  | PyVal.pyInt n => toString n
  | PyVal.pyList xs => "[" ++ pyReprElems xs ++ "]"
  | PyVal.pyDict kvs => "\x7b" ++ pyReprPairs kvs ++ "\x7d"

/-- Comma-separated reprs of list elements. -/
def pyReprElems : List PyVal → String
  | [] => ""
  | [x] => pyRepr x
  | x :: y :: rest => pyRepr x ++ ", " ++ pyReprElems (y :: rest)

/-- Comma-separated `key: value` reprs of dict entries. -/
def pyReprPairs : List (String × PyVal) → String
  | [] => ""
  | [(k, v)] => "\x27" ++ k ++ "\x27: " ++ pyRepr v
  | (k, v) :: p :: rest =>
      "\x27" ++ k ++ "\x27: " ++ pyRepr v ++ ", " ++ pyReprPairs (p :: rest)

end

/-- Python `str(v)`. -/
def pyToStr : PyVal → String
  | PyVal.pyStr s => s
  | v => pyRepr v

/-- The exceptions raised by the program: the custom classes of
`exceptions.py` that `homework.py` uses, plus the builtin `TypeError`,
`KeyError` and `AttributeError` it raises or triggers. -/
inductive Exc where
  | sendMessageException (msg : String)
  | endpointException (msg : String)
  | parseStatusException (msg : String)
  | typeError (msg : String)
  | keyError (msg : String)
  | attributeError (msg : String)
deriving DecidableEq

/-- Python `str(error)`.  `str` of a `KeyError` wraps its argument in
quotes; the other classes render their message verbatim. -/
def excText : Exc → String
  | Exc.sendMessageException m => m
  | Exc.endpointException m => m
  | Exc.parseStatusException m => m
  | Exc.typeError m => m
  | Exc.keyError m => "\x27" ++ m ++ "\x27"
  | Exc.attributeError m => m

/-- Constant `RETRY_PERIOD = 600` (seconds slept between cycles). -/
def RETRY_PERIOD : Nat := 600

/-- Table `HOMEWORK_VERDICTS`: the status → verdict mapping. -/
def HOMEWORK_VERDICTS : List (String × String) :=
  [("approved", "Работа проверена: ревьюеру всё понравилось. Ура!"),
   ("reviewing", "Работа взята на проверку ревьюером."),
   ("rejected", "Работа проверена: у ревьюера есть замечания.")]

/-- Python `HOMEWORK_VERDICTS.get(status)`.  A status that is absent from the
table (the statuses occurring in payloads are strings; other hashable
values are likewise absent) yields `none`. -/
def verdictsGet : PyVal → Option String
  | PyVal.pyStr s => (HOMEWORK_VERDICTS.find? (fun p => p.fst == s)).map Prod.snd
  | _ => none

/-- Model of `check_tokens()`: the Python function returns
`PRACTICUM_TOKEN and TELEGRAM_TOKEN and TELEGRAM_CHAT_ID`, used only for
its truthiness; an unset environment variable is `None` and an empty
string is falsy, so the condition is the conjunction of the truthiness of
the three credentials. -/
def truthy : Option String → Bool
  | none => false
  | some s => !s.isEmpty

def check_tokens (practicum_token telegram_token telegram_chat_id :
    Option String) : Bool :=
  truthy practicum_token && truthy telegram_token && truthy telegram_chat_id

/-- Model of `send_message(bot, message)`: attempts delivery through the Telegram
transport; on `TelegramError(e)` it logs and raises
`SendMessageException(f"Ошибка \x7berror\x7d")`.  The transport outcome is the
input: `none` = delivered, `some e` = `TelegramError(e)`. -/
def send_message (outcome : Option String) : Except Exc Unit :=
  match outcome with
  | none => Except.ok ()
  | some e => Except.error (Exc.sendMessageException ("Ошибка " ++ e))

/-- The outcome of the single `requests.get` of a cycle. -/
inductive BodyResult where
  | decoded (v : PyVal)
  | undecodable

inductive HttpResult where
  | requestException
  | response (status : Nat) (body : BodyResult)

/-- Model of `get_api_answer(timestamp)`: a transport failure raises
`EndpointException`; a non-200 status raises `EndpointException`; a 200
response whose body `response.json()` cannot decode raises
`ParseStatusException`; otherwise the decoded payload is returned. -/
def get_api_answer (r : HttpResult) : Except Exc PyVal :=
  match r with
  | HttpResult.requestException =>
      Except.error (Exc.endpointException "Ошибка при запросе к API")
  | HttpResult.response status body =>
      if status ≠ 200 then
        Except.error (Exc.endpointException ("Ошибка " ++ toString status))
      else
        match body with
        | BodyResult.decoded v => Except.ok v
        | BodyResult.undecodable =>
            Except.error
              (Exc.parseStatusException "Ошибка парсинга ответа из формата json")

/-- Model of `check_response(response)`: not a dict → `TypeError`; missing
`homeworks` key → `KeyError`; `homeworks` not a list → `TypeError`;
otherwise returns the `homeworks` list as is. -/
def check_response (response : PyVal) : Except Exc (List PyVal) :=
  match response with
  | PyVal.pyDict kvs =>
      match dictLookup? kvs "homeworks" with
      | none => Except.error (Exc.keyError "Данные приходят не в виде словаря")
      | some homeworks =>
          match homeworks with
          | PyVal.pyList xs => Except.ok xs
          | _ => Except.error (Exc.typeError "Данные приходят не в виде списка")
  | _ => Except.error (Exc.typeError "Ответ API не словарь")

/-- Model of `parse_status(homework)`: `homework.get("homework_name")` being `None`
(key absent or bound to `None`) raises `KeyError`; likewise for
`"status"`; a status absent from `HOMEWORK_VERDICTS` raises
`ParseStatusException`; otherwise the notification text is rendered.  A
non-dict record has no `.get`, which raises `AttributeError`. -/
def parse_status (homework : PyVal) : Except Exc String :=
  match homework with
  | PyVal.pyDict kvs =>
      let homework_name := dictGet kvs "homework_name"
      if isNone homework_name then
        Except.error
          (Exc.keyError "Отсутствие ожидаемых ключей в ответе API (homework_name)")
      else
        let homework_status := dictGet kvs "status"
        if isNone homework_status then
          Except.error
            (Exc.keyError "Отсутствие ожидаемых ключей в ответе API (status)")
        else
          match verdictsGet homework_status with
          | none =>
              Except.error
                (Exc.parseStatusException
                  "Недокументированный статус домашней работы в ответе от API")
          | some verdict =>
              Except.ok
                ("Изменился статус проверки работы \"" ++ pyToStr homework_name
                  ++ "\". " ++ verdict)
  | other =>
      Except.error
        (Exc.attributeError
          ("\x27" ++ pyTypeName other ++ "\x27 object has no attribute \x27get\x27"))

/-- The mutable state of `main`'s loop: `timestamp` (the poll cursor),
`cache_message` (last-notified success text), `error_message`
(last-notified error text). -/
structure LoopState where
  timestamp : Int
  cache_message : String
  error_message : String
deriving DecidableEq

/-- The external world of one cycle: the HTTP outcome of the cycle's
single `requests.get`, the clock oracle (successive `int(time.time())`
readings), and the Telegram transport oracle (successive
`bot.send_message` outcomes). -/
structure Env where
  http : HttpResult
  times : Nat → Int
  sends : Nat → Option String

/-- Intra-cycle context: the loop state plus the oracle cursors and the
list of message texts passed to `send_message` so far (attempted
notifications, in order). -/
structure CycleCtx where
  st : LoopState
  timeIdx : Nat
  sendIdx : Nat
  sent : List String
deriving DecidableEq

/-- The body of `for homework in homeworks` (lines 136–143): parse, send
unconditionally, advance the cursor, then — only if the text differs from
`cache_message` — send again, update the cache and advance the cursor
again.  Any raise aborts with the exception and the context at that
point. -/
def processHomework (times : Nat → Int) (sends : Nat → Option String)
    (c : CycleCtx) (hw : PyVal) : Except (Exc × CycleCtx) CycleCtx :=
  match parse_status hw with
  | Except.error e => Except.error (e, c)
  | Except.ok message =>
      let c1 : CycleCtx :=
        { c with sent := c.sent ++ [message], sendIdx := c.sendIdx + 1 }
      match send_message (sends c.sendIdx) with
      | Except.error e => Except.error (e, c1)
      | Except.ok _ =>
          let c2 : CycleCtx :=
            { c1 with st := { c1.st with timestamp := times c1.timeIdx },
                      timeIdx := c1.timeIdx + 1 }
          if message = c2.st.cache_message then Except.ok c2
          else
            let c3 : CycleCtx :=
              { c2 with sent := c2.sent ++ [message], sendIdx := c2.sendIdx + 1 }
            match send_message (sends c2.sendIdx) with
            | Except.error e => Except.error (e, c3)
            | Except.ok _ =>
                Except.ok
                  { c3 with
                    st := { c3.st with cache_message := message,
                                       timestamp := times c3.timeIdx },
                    timeIdx := c3.timeIdx + 1 }

def processAll (times : Nat → Int) (sends : Nat → Option String) :
    List PyVal → CycleCtx → Except (Exc × CycleCtx) CycleCtx
  | [], c => Except.ok c
  | hw :: rest, c =>
      match processHomework times sends c hw with
      | Except.error ec => Except.error ec
      | Except.ok c2 => processAll times sends rest c2

/-- The `try` block of one cycle (lines 132–146): fetch, validate, process
every homework (an empty list only logs). -/
def runTry (env : Env) (st : LoopState) : Except (Exc × CycleCtx) CycleCtx :=
  match get_api_answer env.http with
  | Except.error e => Except.error (e, ⟨st, 0, 0, []⟩)
  | Except.ok response =>
      match check_response response with
      | Except.error e => Except.error (e, ⟨st, 0, 0, []⟩)
      | Except.ok homeworks => processAll env.times env.sends homeworks ⟨st, 0, 0, []⟩

/-- Outcome of one full cycle: `next` = the loop sleeps `RETRY_PERIOD` and
continues with the new state, `crashed` = an exception escaped `main`
(process terminates).  `sent` lists the texts passed to `send_message`. -/
inductive CycleResult where
  | next (st : LoopState) (sent : List String)
  | crashed (e : Exc) (sent : List String)
deriving DecidableEq

/-- The messages whose delivery the cycle attempted. -/
def sentOf : CycleResult → List String
  | CycleResult.next _ s => s
  | CycleResult.crashed _ s => s

/-- One full iteration of `while True` (lines 131–154): the `try` block,
then on an exception the handler — log, and if `str(error)` differs from
`error_message`, notify and update the error cache.  The handler's
`send_message` call is itself unprotected: if it raises, the exception
escapes `main`. -/
def runCycle (env : Env) (st : LoopState) : CycleResult :=
  match runTry env st with
  | Except.ok c => CycleResult.next c.st c.sent
  | Except.error (e, c) =>
      let message_t := excText e
      if message_t = c.st.error_message then CycleResult.next c.st c.sent
      else
        match send_message (env.sends c.sendIdx) with
        | Except.error e2 =>
            CycleResult.crashed e2 (c.sent ++ [message_t])
        | Except.ok _ =>
            CycleResult.next { c.st with error_message := message_t }
              (c.sent ++ [message_t])

/-- Outcome of running `main` for a bounded number of cycles.
`httpRequests` counts the cycles started, each of which issues exactly one
`requests.get` inside `get_api_answer`. -/
inductive MainOutcome where
  | halted (criticalLogged : Bool) (httpRequests : Nat)
  | running (st : LoopState) (sentAll : List String) (httpRequests : Nat)
  | crashed (e : Exc) (sentAll : List String) (httpRequests : Nat)
deriving DecidableEq

def runCycles (envs : Nat → Env) : Nat → Nat → LoopState → List String → MainOutcome
  | k, 0, st, acc => MainOutcome.running st acc k
  | k, Nat.succ n, st, acc =>
      match runCycle (envs k) st with
      | CycleResult.next st2 msgs => runCycles envs (k + 1) n st2 (acc ++ msgs)
      | CycleResult.crashed e msgs => MainOutcome.crashed e (acc ++ msgs) (k + 1)

/-- Run of `main()` for at most `n` cycles.  Startup (lines 124–130)
constructs the bot (the Telegram client constructor is an external
collaborator performing no network I/O), takes the initial cursor from the
clock, and — if `check_tokens()` is falsy — logs at critical severity and
exits before the loop, so no cycle ever starts. -/
def runMainN (practicum_token telegram_token telegram_chat_id : Option String)
    (now : Int) (envs : Nat → Env) (n : Nat) : MainOutcome :=
  if check_tokens practicum_token telegram_token telegram_chat_id = false then
    MainOutcome.halted true 0
  else
    runCycles envs 0 n ⟨now, "", ""⟩ []

/-! Concrete fixtures for the counterexamples and evaluations. -/

def hwApproved : PyVal := PyVal.pyDict
  [("homework_name", PyVal.pyStr "hw1"), ("status", PyVal.pyStr "approved")]

def hwUnknown : PyVal := PyVal.pyDict
  [("homework_name", PyVal.pyStr "hw2"), ("status", PyVal.pyStr "unknown_status")]

def msgApproved : String :=
  "Изменился статус проверки работы \"hw1\". Работа проверена: ревьюеру всё понравилось. Ура!"

def undocMsg : String :=
  "Недокументированный статус домашней работы в ответе от API"

def payloadOne : PyVal := PyVal.pyDict
  [("homeworks", PyVal.pyList [hwApproved]),
   ("current_date", PyVal.pyInt 1700000000)]

def payloadTwo : PyVal := PyVal.pyDict
  [("homeworks", PyVal.pyList [hwApproved, hwUnknown]),
   ("current_date", PyVal.pyInt 1700000000)]

def allOk : Nat → Option String := fun _ => none

def clock1000 : Nat → Int := fun _ => 1000

def envOne : Env :=
  ⟨HttpResult.response 200 (BodyResult.decoded payloadOne), clock1000, allOk⟩

def envBadGateway : Env :=
  ⟨HttpResult.response 500 (BodyResult.decoded payloadOne), clock1000,
   fun _ => some "boom"⟩

def envTwo : Env :=
  ⟨HttpResult.response 200 (BodyResult.decoded payloadTwo), clock1000, allOk⟩

def stInit : LoopState := ⟨500, "", ""⟩

/-! Helper lemmas about dict lookups. -/

theorem dictLookup_removeKey (k : String) (kvs : List (String × PyVal)) :
    dictLookup? (removeKey k kvs) k = none := by
  induction kvs with
  | nil => rfl
  | cons p rest ih =>
      obtain ⟨k2, v⟩ := p
      by_cases h : k2 = k
      · simp [removeKey, h, ih]
      · simp [removeKey, dictLookup?, h, ih]

theorem dictLookup_removeKey_ne (k k2 : String) (h : k2 ≠ k)
    (kvs : List (String × PyVal)) :
    dictLookup? (removeKey k kvs) k2 = dictLookup? kvs k2 := by
  induction kvs with
  | nil => rfl
  | cons p rest ih =>
      obtain ⟨k3, v⟩ := p
      by_cases h3 : k3 = k
      · subst h3
        simp [removeKey, dictLookup?, Ne.symm h, ih]
      · simp [removeKey, dictLookup?, h3, ih]

theorem dictGet_removeKey (k : String) (kvs : List (String × PyVal)) :
    dictGet (removeKey k kvs) k = PyVal.pyNone := by
  simp [dictGet, dictLookup_removeKey]

theorem dictGet_removeKey_ne (k k2 : String) (h : k2 ≠ k)
    (kvs : List (String × PyVal)) :
    dictGet (removeKey k kvs) k2 = dictGet kvs k2 := by
  simp [dictGet, dictLookup_removeKey_ne k k2 h]

/-- C1: the spec requires at most one outbound notification per distinct
message text in consecutive cycles, and that an identical consecutive
payload never re-triggers delivery.  The code dispatches every fresh
message twice in its first cycle (the unconditional `send_message` on
line 138 precedes the dedup check on line 140) and dispatches it once
more on the following identical cycle, so the run below attempts two
deliveries and then a third. -/
theorem C1_dedup_violated :
    runCycle envOne stInit =
      CycleResult.next ⟨1000, msgApproved, ""⟩ [msgApproved, msgApproved] ∧
    runCycle envOne ⟨1000, msgApproved, ""⟩ =
      CycleResult.next ⟨1000, msgApproved, ""⟩ [msgApproved] :=
  ⟨rfl, rfl⟩

/-- C2 counterexample: with the endpoint answering 500 and the Telegram
transport failing, the error-notification attempt inside the exception
handler raises `SendMessageException`, which escapes `main`: the delivery
failure terminates the process, refuting the claim as stated. -/
theorem C2_counterexample :
    runCycle envBadGateway stInit =
      CycleResult.crashed (Exc.sendMessageException "Ошибка boom")
        ["Ошибка 500"] := rfl

/-- C4: if any of the three credentials is absent (`none`) or empty
(falsy), `main` logs at critical severity and halts before the loop: no
cycle starts and no HTTP request is issued. -/
theorem C4_fatal_startup (p t c : Option String) (now : Int)
    (envs : Nat → Env) (n : Nat)
    (h : truthy p = false ∨ truthy t = false ∨ truthy c = false) :
    runMainN p t c now envs n = MainOutcome.halted true 0 := by
  have hct : check_tokens p t c = false := by
    unfold check_tokens
    rcases h with h | h | h <;> simp [h]
  simp [runMainN, hct]

theorem C4_witness :
    runMainN none (some "tok") (some "42") 500 (fun _ => envOne) 3 =
      MainOutcome.halted true 0 :=
  C4_fatal_startup none (some "tok") (some "42") 500 (fun _ => envOne) 3
    (Or.inl rfl)

/-- C6: a 200 response whose body cannot be decoded makes the fetch fail
with `ParseStatusException`, and an undecodable body is never returned as
a payload — every successful fetch comes from a 200 response with a
decoded body equal to the returned payload. -/
theorem C6_malformed_payload :
    get_api_answer (HttpResult.response 200 BodyResult.undecodable) =
      Except.error
        (Exc.parseStatusException "Ошибка парсинга ответа из формата json") ∧
    ∀ r v, get_api_answer r = Except.ok v →
      r = HttpResult.response 200 (BodyResult.decoded v) := by
  refine ⟨rfl, ?_⟩
  intro r v h
  cases r with
  | requestException => simp [get_api_answer] at h
  | response status body =>
      by_cases hs : status = 200
      · subst hs
        cases body with
        | decoded w =>
            have hw : w = v := by simpa [get_api_answer] using h
            subst hw
            rfl
        | undecodable => simp [get_api_answer] at h
      · simp [get_api_answer, hs] at h

theorem C6_witness :
    HttpResult.response 200 (BodyResult.decoded (PyVal.pyInt 0)) =
      HttpResult.response 200 (BodyResult.decoded (PyVal.pyInt 0)) :=
  C6_malformed_payload.2 (HttpResult.response 200 (BodyResult.decoded (PyVal.pyInt 0)))
    (PyVal.pyInt 0) rfl

/-- C7: a record with a string name and a status mapped by the verdict
table formats to the documented text and never raises. -/
theorem C7_formatter (kvs : List (String × PyVal)) (name s verdict : String)
    (hn : dictGet kvs "homework_name" = PyVal.pyStr name)
    (hs : dictGet kvs "status" = PyVal.pyStr s)
    (hv : verdictsGet (PyVal.pyStr s) = some verdict) :
    parse_status (PyVal.pyDict kvs) =
      Except.ok ("Изменился статус проверки работы \"" ++ name
        ++ "\". " ++ verdict) := by
  simp [parse_status, hn, hs, hv, isNone, pyToStr]

theorem C7_witness :
    parse_status hwApproved = Except.ok msgApproved :=
  C7_formatter
    [("homework_name", PyVal.pyStr "hw1"), ("status", PyVal.pyStr "approved")]
    "hw1" "approved" "Работа проверена: ревьюеру всё понравилось. Ура!"
    rfl rfl rfl

/-- C9: `parse_status` reads its fields with `.get`, so a key bound to
`None` is indistinguishable from an absent key: under
`dictGet kvs k = pyNone` (which covers both situations) it raises the same
missing-key error, and the record with the key deleted raises that same
error. -/
theorem C9_null_equals_absent (kvs : List (String × PyVal)) :
    (dictGet kvs "homework_name" = PyVal.pyNone →
      parse_status (PyVal.pyDict kvs) =
        Except.error
          (Exc.keyError "Отсутствие ожидаемых ключей в ответе API (homework_name)") ∧
      parse_status (PyVal.pyDict (removeKey "homework_name" kvs)) =
        Except.error
          (Exc.keyError "Отсутствие ожидаемых ключей в ответе API (homework_name)")) ∧
    (dictGet kvs "status" = PyVal.pyNone →
      isNone (dictGet kvs "homework_name") = false →
      parse_status (PyVal.pyDict kvs) =
        Except.error
          (Exc.keyError "Отсутствие ожидаемых ключей в ответе API (status)") ∧
      parse_status (PyVal.pyDict (removeKey "status" kvs)) =
        Except.error
          (Exc.keyError "Отсутствие ожидаемых ключей в ответе API (status)")) := by
  constructor
  · intro h
    constructor
    · simp [parse_status, h, isNone]
    · simp [parse_status, dictGet_removeKey, isNone]
  · intro hs hn
    constructor
    · simp [parse_status, hs, hn, show isNone PyVal.pyNone = true from rfl]
    · have hn2 : isNone (dictGet (removeKey "status" kvs) "homework_name") = false := by
        rw [dictGet_removeKey_ne "status" "homework_name" (by decide) kvs]
        exact hn
      simp [parse_status, hn2, dictGet_removeKey,
        show isNone PyVal.pyNone = true from rfl]

theorem C9_witness :
    parse_status (PyVal.pyDict [("homework_name", PyVal.pyNone)]) =
      Except.error
        (Exc.keyError "Отсутствие ожидаемых ключей в ответе API (homework_name)") ∧
    parse_status (PyVal.pyDict (removeKey "homework_name" [("homework_name", PyVal.pyNone)])) =
      Except.error
        (Exc.keyError "Отсутствие ожидаемых ключей в ответе API (homework_name)") :=
  (C9_null_equals_absent [("homework_name", PyVal.pyNone)]).1 rfl

/-- C10: `check_response` performs no element-level validation — any dict
whose `homeworks` key holds a list gets that list back unchanged, even
when its elements are not well-formed homework records. -/
theorem C10_returns_list_unchanged (kvs : List (String × PyVal)) (xs : List PyVal)
    (h : dictLookup? kvs "homeworks" = some (PyVal.pyList xs)) :
    check_response (PyVal.pyDict kvs) = Except.ok xs := by
  simp [check_response, h]

/-- The context carried by the result of a `try`-block fragment, whether
it completed or aborted with an exception. -/
def ctxOf : Except (Exc × CycleCtx) CycleCtx → CycleCtx
  | Except.ok c => c
  | Except.error (_, c) => c

theorem processHomework_cursor (times : Nat → Int) (sends : Nat → Option String)
    (T : Int) (ht : ∀ i, T ≤ times i) (c : CycleCtx) (hw : PyVal)
    (hc : T ≤ c.st.timestamp) :
    T ≤ (ctxOf (processHomework times sends c hw)).st.timestamp := by
  unfold processHomework
  cases parse_status hw with
  | error e => simpa [ctxOf] using hc
  | ok message =>
      cases hsd : sends c.sendIdx with
      | some err => simpa [ctxOf, send_message, hsd] using hc
      | none =>
          by_cases hm : message = c.st.cache_message
          · simpa [ctxOf, send_message, hsd, hm] using ht c.timeIdx
          · cases hsd2 : sends (c.sendIdx + 1) with
            | some err =>
                simpa [ctxOf, send_message, hsd, hsd2, hm] using ht c.timeIdx
            | none =>
                simpa [ctxOf, send_message, hsd, hsd2, hm] using ht (c.timeIdx + 1)

theorem processAll_cursor (times : Nat → Int) (sends : Nat → Option String)
    (T : Int) (ht : ∀ i, T ≤ times i) :
    ∀ (l : List PyVal) (c : CycleCtx), T ≤ c.st.timestamp →
      T ≤ (ctxOf (processAll times sends l c)).st.timestamp := by
  intro l
  induction l with
  | nil => intro c hc; simpa [processAll, ctxOf] using hc
  | cons hw rest ih =>
      intro c hc
      unfold processAll
      have hstep := processHomework_cursor times sends T ht c hw hc
      cases hp : processHomework times sends c hw with
      | error ec =>
          rw [hp] at hstep
          simpa [ctxOf] using hstep
      | ok c2 =>
          rw [hp] at hstep
          simp only [ctxOf] at hstep
          simpa using ih c2 hstep

theorem runTry_cursor (env : Env) (st : LoopState) (T : Int)
    (ht : ∀ i, T ≤ env.times i) (hst : T ≤ st.timestamp) :
    T ≤ (ctxOf (runTry env st)).st.timestamp := by
  rcases hga : get_api_answer env.http with e | response
  · simpa [runTry, hga, ctxOf] using hst
  · rcases hcr : check_response response with e | homeworks
    · simpa [runTry, hga, hcr, ctxOf] using hst
    · have hall := processAll_cursor env.times env.sends T ht homeworks ⟨st, 0, 0, []⟩ hst
      simpa [runTry, hga, hcr] using hall

theorem runCycle_next_timestamp (env : Env) (st st2 : LoopState)
    (msgs : List String) (h : runCycle env st = CycleResult.next st2 msgs) :
    st2.timestamp = (ctxOf (runTry env st)).st.timestamp := by
  unfold runCycle at h
  cases hga : runTry env st with
  | ok c =>
      rw [hga] at h
      simp only [CycleResult.next.injEq] at h
      rw [← h.1]
      simp [ctxOf]
  | error ec =>
      obtain ⟨e, c⟩ := ec
      rw [hga] at h
      simp only [ctxOf]
      by_cases hc : excText e = c.st.error_message
      · simp only [hc, if_pos, CycleResult.next.injEq] at h
        rw [← h.1]
      · simp only [if_neg hc] at h
        cases hsd : env.sends c.sendIdx with
        | some e2 => rw [hsd] at h; simp [send_message] at h
        | none =>
            rw [hsd] at h
            simp only [send_message, CycleResult.next.injEq] at h
            rw [← h.1]

/-- C3 counterexample: a cycle whose second homework has an undocumented
status aborts with an exception (the cycle fails and the handler runs),
yet the cursor was already advanced from 500 to 1000 by the sends for the
first homework — a failed cycle does not leave the cursor unchanged. -/
theorem C3_counterexample :
    runTry envTwo stInit =
      Except.error (Exc.parseStatusException undocMsg,
        ⟨⟨1000, msgApproved, ""⟩, 2, 2, [msgApproved, msgApproved]⟩) ∧
    runCycle envTwo stInit =
      CycleResult.next ⟨1000, msgApproved, undocMsg⟩
        [msgApproved, msgApproved, undocMsg] ∧
    (LoopState.mk 1000 msgApproved undocMsg).timestamp ≠ stInit.timestamp :=
  ⟨rfl, rfl, by decide⟩

/-- C3 amended: the cursor never regresses.  Provided every clock reading
of the cycle is at least the cursor's prior value (the clock is monotone
and the cursor was taken from it), the cursor after any completed cycle —
successful or failed — is ≥ its value before the cycle; a failed cycle
may nonetheless have advanced it, as notifications dispatched before the
failure already moved it to the clock reading taken after each send. -/
theorem C3_amended (env : Env) (st : LoopState)
    (ht : ∀ i, st.timestamp ≤ env.times i)
    (st2 : LoopState) (msgs : List String)
    (h : runCycle env st = CycleResult.next st2 msgs) :
    st.timestamp ≤ st2.timestamp := by
  rw [runCycle_next_timestamp env st st2 msgs h]
  exact runTry_cursor env st st.timestamp ht le_rfl

theorem C3_witness :
    stInit.timestamp ≤ (LoopState.mk 1000 msgApproved "").timestamp :=
  C3_amended envOne stInit (fun _ => by norm_num [envOne, clock1000, stInit])
    ⟨1000, msgApproved, ""⟩ [msgApproved, msgApproved] rfl

/-- C2 amended: a delivery failure during a notification attempt inside
the cycle body is caught by the loop's catch-all handler and the loop
resumes; the only way a cycle terminates the process is a transport
failure at the error-notification attempt inside the exception handler:
every crash carries the `SendMessageException` of a failed transport
send, and if the transport never fails the loop always continues. -/
theorem C2_amended (env : Env) (st : LoopState) :
    (∀ e msgs, runCycle env st = CycleResult.crashed e msgs →
      ∃ t, e = Exc.sendMessageException ("Ошибка " ++ t) ∧
        ∃ i, env.sends i = some t) ∧
    ((∀ i, env.sends i = none) →
      ∃ st2 msgs, runCycle env st = CycleResult.next st2 msgs) := by
  constructor
  · intro e msgs h
    unfold runCycle at h
    cases hga : runTry env st with
    | ok c => rw [hga] at h; simp at h
    | error ec =>
        obtain ⟨e0, c⟩ := ec
        rw [hga] at h
        by_cases hc : excText e0 = c.st.error_message
        · simp [hc] at h
        · simp only [if_neg hc] at h
          cases hsd : env.sends c.sendIdx with
          | none => rw [hsd] at h; simp [send_message] at h
          | some t =>
              rw [hsd] at h
              simp only [send_message, CycleResult.crashed.injEq] at h
              exact ⟨t, h.1.symm, c.sendIdx, hsd⟩
  · intro hall
    unfold runCycle
    cases hga : runTry env st with
    | ok c => exact ⟨c.st, c.sent, rfl⟩
    | error ec =>
        obtain ⟨e0, c⟩ := ec
        by_cases hc : excText e0 = c.st.error_message
        · refine ⟨c.st, c.sent, ?_⟩
          simp [hc]
        · refine ⟨{ c.st with error_message := excText e0 },
            c.sent ++ [excText e0], ?_⟩
          simp [if_neg hc, hall c.sendIdx, send_message]

theorem C2_witness :
    ∃ st2 msgs, runCycle envTwo stInit = CycleResult.next st2 msgs :=
  (C2_amended envTwo stInit).2 (fun _ => rfl)

/-- C5: `check_response` returns the homeworks sequence exactly when the
payload is a dict that binds `homeworks` to a list; each of the three
shape violations fails with its own distinct error. -/
theorem C5_check_response_contract (v : PyVal) :
    (∀ xs, check_response v = Except.ok xs ↔
      ∃ kvs, v = PyVal.pyDict kvs ∧
        dictLookup? kvs "homeworks" = some (PyVal.pyList xs)) ∧
    ((∀ kvs, v ≠ PyVal.pyDict kvs) →
      check_response v = Except.error (Exc.typeError "Ответ API не словарь")) ∧
    (∀ kvs, v = PyVal.pyDict kvs → dictLookup? kvs "homeworks" = none →
      check_response v =
        Except.error (Exc.keyError "Данные приходят не в виде словаря")) ∧
    (∀ kvs w, v = PyVal.pyDict kvs → dictLookup? kvs "homeworks" = some w →
      (∀ xs, w ≠ PyVal.pyList xs) →
      check_response v =
        Except.error (Exc.typeError "Данные приходят не в виде списка")) := by
  refine ⟨?_, ?_, ?_, ?_⟩
  · intro xs
    constructor
    · intro h
      cases v with
      | pyDict kvs =>
          cases hl : dictLookup? kvs "homeworks" with
          | none => simp [check_response, hl] at h
          | some w =>
              cases w with
              | pyList ys =>
                  refine ⟨kvs, rfl, ?_⟩
                  have : ys = xs := by simpa [check_response, hl] using h
                  rw [hl, this]
              | pyNone => simp [check_response, hl] at h
              | pyStr s => simp [check_response, hl] at h
              | pyInt n => simp [check_response, hl] at h
              | pyDict kvs2 => simp [check_response, hl] at h
      | pyNone => simp [check_response] at h
      | pyStr s => simp [check_response] at h
      | pyInt n => simp [check_response] at h
      | pyList ys => simp [check_response] at h
    · rintro ⟨kvs, rfl, hl⟩
      simp [check_response, hl]
  · intro h
    cases v with
    | pyDict kvs => exact absurd rfl (h kvs)
    | pyNone => rfl
    | pyStr s => rfl
    | pyInt n => rfl
    | pyList ys => rfl
  · rintro kvs rfl hl
    simp [check_response, hl]
  · rintro kvs w rfl hl hw
    cases w with
    | pyList ys => exact absurd rfl (hw ys)
    | pyNone => simp [check_response, hl]
    | pyStr s => simp [check_response, hl]
    | pyInt n => simp [check_response, hl]
    | pyDict kvs2 => simp [check_response, hl]

theorem C5_witness :
    check_response (PyVal.pyDict []) =
      Except.error (Exc.keyError "Данные приходят не в виде словаря") :=
  (C5_check_response_contract (PyVal.pyDict [])).2.2.1 [] rfl rfl

/-- C8: a record with a name and a string status outside the verdict
table makes `parse_status` fail with the undocumented-status
`ParseStatusException`, and in a cycle whose payload holds that record no
notification carrying the raw record is attempted: every text passed to
`send_message` in that cycle is the fixed diagnostic message. -/
theorem C8_undocumented_status (kvs : List (String × PyVal)) (s : String)
    (hn : isNone (dictGet kvs "homework_name") = false)
    (hs : dictGet kvs "status" = PyVal.pyStr s)
    (hv : verdictsGet (PyVal.pyStr s) = none)
    (st : LoopState) (times : Nat → Int) (sends : Nat → Option String) :
    parse_status (PyVal.pyDict kvs) =
      Except.error (Exc.parseStatusException undocMsg) ∧
    ∀ m ∈ sentOf (runCycle
        ⟨HttpResult.response 200 (BodyResult.decoded
          (PyVal.pyDict [("homeworks", PyVal.pyList [PyVal.pyDict kvs])])),
         times, sends⟩ st),
      m = undocMsg := by
  have hp : parse_status (PyVal.pyDict kvs) =
      Except.error (Exc.parseStatusException undocMsg) := by
    simp [parse_status, hn, hs, hv, undocMsg,
      show isNone (PyVal.pyStr s) = false from rfl]
  refine ⟨hp, ?_⟩
  intro m hm
  have htry : runTry
      ⟨HttpResult.response 200 (BodyResult.decoded
        (PyVal.pyDict [("homeworks", PyVal.pyList [PyVal.pyDict kvs])])),
       times, sends⟩ st =
      Except.error (Exc.parseStatusException undocMsg, ⟨st, 0, 0, []⟩) := by
    simp [runTry, get_api_answer, check_response, dictLookup?, processAll,
      processHomework, hp]
  rw [runCycle, htry] at hm
  simp only [excText] at hm
  by_cases hc : undocMsg = st.error_message
  · simp [hc, sentOf] at hm
  · simp only [if_neg hc] at hm
    cases hsd : sends 0 with
    | none =>
        rw [hsd] at hm
        simpa [send_message, sentOf] using hm
    | some e2 =>
        rw [hsd] at hm
        simpa [send_message, sentOf] using hm

theorem C8_witness :
    parse_status hwUnknown = Except.error (Exc.parseStatusException undocMsg) ∧
    ∀ m ∈ sentOf (runCycle
        ⟨HttpResult.response 200 (BodyResult.decoded
          (PyVal.pyDict [("homeworks", PyVal.pyList [hwUnknown])])),
         clock1000, allOk⟩ stInit),
      m = undocMsg :=
  C8_undocumented_status
    [("homework_name", PyVal.pyStr "hw2"), ("status", PyVal.pyStr "unknown_status")]
    "unknown_status" rfl rfl rfl stInit clock1000 allOk

theorem C10_witness :
    check_response
      (PyVal.pyDict [("homeworks", PyVal.pyList [PyVal.pyInt 7, PyVal.pyNone])]) =
      Except.ok [PyVal.pyInt 7, PyVal.pyNone] :=
  C10_returns_list_unchanged
    [("homeworks", PyVal.pyList [PyVal.pyInt 7, PyVal.pyNone])]
    [PyVal.pyInt 7, PyVal.pyNone] rfl
